import Mathlib

/-!
Shallow embedding of the rangrez-backend event-ticketing routes
(`routes/eventRoutes.js` and the two versions of `routes/bookingRoutes.js`).

Databases are modelled as association lists `List (String × α)` from
document id to record; external collaborators (Cloudinary upload, QR
encoding) are abstract function parameters; every handler is a pure
function from the request and the store to a result that records the
HTTP status, the possibly-updated store, and the observable side effects
(database operations performed, uploads performed, emails sent).
-/

namespace Rangrez

/-- One character of the id regex character class `[0-9a-fA-F]`. -/
def isHexChar (c : Char) : Bool :=
  (('0' ≤ c && c ≤ '9') || ('a' ≤ c && c ≤ 'f') || ('A' ≤ c && c ≤ 'F'))

/-- The id-format check `id.match(/^[0-9a-fA-F]{24}$/)` used by the event
routes: exactly 24 hexadecimal characters. -/
def isValidObjectId (s : String) : Bool :=
  s.data.length == 24 && s.data.all isHexChar

/-- JavaScript `x || prev` where `x` is an optional string from `req.body`:
`undefined` (here `none`) and the empty string are falsy, so the previous
value is kept; any other string replaces it. -/
def orFallback (x : Option String) (prev : String) : String :=
  match x with
  | none => prev
  | some s => if s = "" then prev else s

/-- Replace the first matching entry of an association list
(a saved mongoose document overwrites the stored record with that id). -/
def setById {α : Type} (db : List (String × α)) (id : String) (v : α) :
    List (String × α) :=
  match db with
  | [] => []
  | p :: rest => if p.1 == id then (id, v) :: rest else p :: setById rest id v

/-- Ticket generation `Math.floor(100000 + Math.random() * 900000)`.
`Math.random()` returns a double in `[0, 1)`; doubles are rational, so the
draw is modelled as a rational argument. -/
def genTicketNumber (r : ℚ) : ℤ :=
  ⌊(100000 : ℚ) + r * 900000⌋

/-- An Event document (`models/Event.js`, fields as used by
`routes/eventRoutes.js`). -/
structure Event where
  title : String
  description : String
  date : String
  location : String
  category : String
  address : String
  standardPrice : String
  vipPrice : String
  eventTime : String
  refreshments : String
  imageUrl : String
  sponsorLogos : List String
deriving Repr, DecidableEq

/-- A Booking document (`models/Booking.js`, fields as used by
`routes/bookingRoutes.js`). `eventId` is a reference by id with no
foreign-key enforcement. -/
structure Booking where
  firstName : String
  lastName : String
  contactNumber : String
  emailAddress : String
  cityName : String
  ticketType : String
  eventId : String
  ticketNumber : ℤ
  receiptImage : String
  bookingStatus : String
deriving Repr, DecidableEq

/-- Resolve `.populate("eventId")`: look the referenced event up by id,
`none` when the reference dangles. -/
def populateEvent (events : List (String × Event)) (eid : String) :
    Option Event :=
  (events.find? (fun p => p.1 == eid)).map (fun p => p.2)

/-! ### Event routes (`routes/eventRoutes.js`) -/

/-- Result of `GET /api/events/:id`: HTTP status, response body, and the
number of database queries the handler performed. -/
structure GetEventResult where
  httpStatus : Nat
  body : Option Event
  dbQueries : Nat
deriving Repr, DecidableEq

/-- Handler for `GET /:id`: reject a malformed id with 400 before any database access;
otherwise `Event.findById`, 404 when absent, 200 with the event when found. -/
def getEventById (db : List (String × Event)) (id : String) : GetEventResult :=
  if !(isValidObjectId id) then ⟨400, none, 0⟩
  else
    match db.find? (fun p => p.1 == id) with
    | none => ⟨404, none, 1⟩
    | some p => ⟨200, some p.2, 1⟩

/-- The multipart body of `POST /add`: the ten text fields plus the optional
attached files, each file modelled by its in-memory buffer. -/
structure EventCreateBody where
  title : String
  description : String
  date : String
  location : String
  category : String
  address : String
  standardPrice : String
  vipPrice : String
  eventTime : String
  refreshments : String
  imageFile : Option String
  sponsorFiles : Option (List String)
deriving Repr, DecidableEq

/-- Result of `POST /add`: HTTP status, the updated event store and the
saved document returned to the client. -/
structure CreateEventResult where
  httpStatus : Nat
  db : List (String × Event)
  savedEvent : Option Event
deriving Repr, DecidableEq

/-- The document `POST /add` builds from the request: the ten text fields
verbatim, `imageUrl` from the uploaded primary image (default `""`), and
`sponsorLogos` from the uploaded logo files (default `[]`). `upl` abstracts
`uploadToCloudinary buffer folder`, returning the secure URL. -/
def builtEvent (upl : String → String → String) (body : EventCreateBody) :
    Event :=
  { title := body.title
    description := body.description
    date := body.date
    location := body.location
    category := body.category
    address := body.address
    standardPrice := body.standardPrice
    vipPrice := body.vipPrice
    eventTime := body.eventTime
    refreshments := body.refreshments
    imageUrl :=
      match body.imageFile with
      | none => ""
      | some buf => upl buf "events"
    sponsorLogos :=
      match body.sponsorFiles with
      | none => []
      | some bufs => bufs.map (fun buf => upl buf "events/sponsors") }

/-- Handler for `POST /add`: upload the attached files, build the document and save it;
`newId` is the id the persistence layer generates for the document. -/
def createEvent (upl : String → String → String)
    (db : List (String × Event)) (newId : String) (body : EventCreateBody) :
    CreateEventResult :=
  let ev := builtEvent upl body
  ⟨201, db ++ [(newId, ev)], some ev⟩

/-- The multipart body of `PUT /:id`: each text field is `none` when absent
from `req.body` (JavaScript `undefined`); files as in creation. -/
structure EventUpdateBody where
  title : Option String
  description : Option String
  date : Option String
  location : Option String
  category : Option String
  address : Option String
  standardPrice : Option String
  vipPrice : Option String
  eventTime : Option String
  refreshments : Option String
  imageFile : Option String
  sponsorFiles : Option (List String)
deriving Repr, DecidableEq

/-- The field-by-field merge performed by `PUT /:id`: each text field is
`supplied || previous`; `imageUrl` and `sponsorLogos` are replaced by the
URLs of freshly uploaded files only when files are attached. -/
def applyEventUpdate (upl : String → String → String) (ev : Event)
    (body : EventUpdateBody) : Event :=
  let ev1 : Event :=
    { title := orFallback body.title ev.title
      description := orFallback body.description ev.description
      date := orFallback body.date ev.date
      location := orFallback body.location ev.location
      category := orFallback body.category ev.category
      address := orFallback body.address ev.address
      standardPrice := orFallback body.standardPrice ev.standardPrice
      vipPrice := orFallback body.vipPrice ev.vipPrice
      eventTime := orFallback body.eventTime ev.eventTime
      refreshments := orFallback body.refreshments ev.refreshments
      imageUrl := ev.imageUrl
      sponsorLogos := ev.sponsorLogos }
  let ev2 : Event :=
    match body.imageFile with
    | none => ev1
    | some buf => { ev1 with imageUrl := upl buf "events" }
  match body.sponsorFiles with
  | none => ev2
  | some bufs =>
      { ev2 with sponsorLogos := bufs.map (fun buf => upl buf "events/sponsors") }

/-- Result of `PUT /:id` and `DELETE /:id`: HTTP status, updated store, and
the observable effect counts (database operations, uploads). -/
structure MutateEventResult where
  httpStatus : Nat
  db : List (String × Event)
  dbOps : Nat
  uploads : Nat
deriving Repr, DecidableEq

/-- Number of Cloudinary uploads `PUT /:id` performs for a body. -/
def updateUploads (body : EventUpdateBody) : Nat :=
  (match body.imageFile with | none => 0 | some _ => 1) +
    (match body.sponsorFiles with | none => 0 | some bufs => bufs.length)

/-- Handler for `PUT /:id`: malformed id → 400 before any database access; absent id →
404; otherwise merge with `applyEventUpdate` and save the document back. -/
def updateEvent (upl : String → String → String)
    (db : List (String × Event)) (id : String) (body : EventUpdateBody) :
    MutateEventResult :=
  if !(isValidObjectId id) then ⟨400, db, 0, 0⟩
  else
    match db.find? (fun p => p.1 == id) with
    | none => ⟨404, db, 1, 0⟩
    | some p =>
        ⟨200, setById db id (applyEventUpdate upl p.2 body), 2,
          updateUploads body⟩

/-- Handler for `DELETE /:id`: malformed id → 400 before any database access; absent id
→ 404; otherwise `event.deleteOne()` removes the found document. -/
def deleteEvent (db : List (String × Event)) (id : String) :
    MutateEventResult :=
  if !(isValidObjectId id) then ⟨400, db, 0, 0⟩
  else
    match db.find? (fun p => p.1 == id) with
    | none => ⟨404, db, 1, 0⟩
    | some _ => ⟨200, db.eraseP (fun p => p.1 == id), 2, 0⟩

/-! ### Booking routes (`routes/bookingRoutes.js`, both versions) -/

/-- JavaScript truthiness of an optional string from `req.body`:
`undefined` and `""` are falsy. -/
def isFalsyStr (x : Option String) : Bool :=
  match x with
  | none => true
  | some s => s == ""

/-- The body of `POST /booking/create`: the text fields, the optional
`eventId`, and `req.file` (the uploaded receipt buffer) when present. -/
structure CreateBookingBody where
  firstName : String
  lastName : String
  contactNumber : String
  emailAddress : String
  cityName : String
  ticketType : String
  eventId : Option String
  receiptFile : Option String
deriving Repr, DecidableEq

/-- Result of `POST /booking/create`: HTTP status, the updated booking
store, the saved booking echoed to the client, and the number of uploads
performed against the media store. -/
structure CreateBookingResult where
  httpStatus : Nat
  db : List (String × Booking)
  savedBooking : Option Booking
  uploads : Nat
deriving Repr, DecidableEq

/-- Handler for `POST /booking/create` (identical in both route versions): 400 when
`req.file` is missing or `eventId` is falsy, before any upload or save;
otherwise upload the receipt to folder "receipts", generate the ticket
number, and save the booking with schema-default status "Pending".
`ticketNumber` is the value `Math.floor(100000 + Math.random() * 900000)`
drawn for this request; `newId` is the persistence-layer document id. -/
def createBooking (upl : String → String → String) (ticketNumber : ℤ)
    (db : List (String × Booking)) (newId : String)
    (body : CreateBookingBody) : CreateBookingResult :=
  match body.receiptFile with
  | none => ⟨400, db, none, 0⟩
  | some file =>
      if isFalsyStr body.eventId then ⟨400, db, none, 0⟩
      else
        let b : Booking :=
          { firstName := body.firstName
            lastName := body.lastName
            contactNumber := body.contactNumber
            emailAddress := body.emailAddress
            cityName := body.cityName
            ticketType := body.ticketType
            eventId := body.eventId.getD ""
            ticketNumber := ticketNumber
            receiptImage := upl file "receipts"
            bookingStatus := "Pending" }
        ⟨201, db ++ [(newId, b)], some b, 1⟩

/-- The status enumeration `["Pending", "Paid", "Unpaid", "Cancelled"]`
validated by `PUT /booking/update-status/:id`. -/
def validStatuses : List String :=
  ["Pending", "Paid", "Unpaid", "Cancelled"]

/-- Result of `PUT /booking/update-status/:id`: HTTP status, updated
booking store and the number of database operations performed. -/
structure StatusUpdateResult where
  httpStatus : Nat
  db : List (String × Booking)
  dbOps : Nat
deriving Repr, DecidableEq

/-- Handler for `PUT /booking/update-status/:id`: reject a status outside the
enumeration (including an absent one — `includes(undefined)` is false)
with 400 before touching the database; otherwise `findByIdAndUpdate`
replaces the stored status, 404 when the id matches no booking. -/
def updateBookingStatus (db : List (String × Booking)) (id : String)
    (newStatus : Option String) : StatusUpdateResult :=
  match newStatus with
  | none => ⟨400, db, 0⟩
  | some s =>
      if !(validStatuses.contains s) then ⟨400, db, 0⟩
      else
        match db.find? (fun p => p.1 == id) with
        | none => ⟨404, db, 1⟩
        | some p => ⟨200, setById db id { p.2 with bookingStatus := s }, 1⟩

/-- Result of `GET /booking/verify/:ticketNumber`: HTTP status, the `valid`
flag, and when valid the matched booking with its populated event. -/
structure VerifyResult where
  httpStatus : Nat
  valid : Bool
  booking : Option (Booking × Option Event)
deriving Repr, DecidableEq

/-- Handler for `GET /booking/verify/:ticketNumber` (identical in both route versions):
`Booking.findOne({ ticketNumber })` returns the first booking whose ticket
number matches; 404 with `valid:false` when none does, otherwise 200 with
`valid:true` and the booking, its `eventId` populated. -/
def verifyTicket (events : List (String × Event))
    (bookings : List (String × Booking)) (t : ℤ) : VerifyResult :=
  match bookings.find? (fun p => p.2.ticketNumber == t) with
  | none => ⟨404, false, none⟩
  | some p => ⟨200, true, some (p.2, populateEvent events p.2.eventId)⟩

/-! ### `POST /booking/send-email/:id` (both versions) -/

/-- JavaScript `s.replace(pat, repl)` with a string pattern: replace the
first occurrence only; the string is unchanged when the pattern is absent. -/
def replaceFirst (s pat repl : String) : String :=
  match s.splitOn pat with
  | [] => s
  | [_] => s
  | first :: rest => first ++ repl ++ String.intercalate pat rest

/-- The body of the first send-email version: `subject`, `message` and the
caller-supplied `htmlContent`. -/
structure SendEmailBody where
  subject : Option String
  message : Option String
  htmlContent : Option String
deriving Repr, DecidableEq

/-- One message handed to `transporter.sendMail`: recipient, subject,
optional plain-text body, HTML body, and attachments as
(filename, content, content-id) triples. -/
structure Email where
  toAddr : String
  subject : String
  textBody : Option String
  htmlBody : String
  attachments : List (String × String × String)
deriving Repr, DecidableEq

/-- Result of `POST /booking/send-email/:id`: HTTP status and the list of
emails actually handed to the mail transport. -/
structure SendEmailResult where
  httpStatus : Nat
  emails : List Email
deriving Repr, DecidableEq

/-- The first version's verification URL
`https://your-domain.com/verify-ticket/$\x7bbooking.ticketNumber\x7d`. -/
def verificationURLv1 (t : ℤ) : String :=
  "https://your-domain.com/verify-ticket/" ++ toString t

/-- First send-email version: 400 when `htmlContent` is falsy (before the
booking lookup); 404 when the id matches no booking; otherwise encode the
verification URL as a QR data-URL (`qrData` abstracts `QRCode.toDataURL`),
substitute it for the first `\x7b\x7bQR_CODE\x7d\x7d` placeholder in the
caller's HTML, and send exactly one email to the booking's stored address. -/
def sendEmailV1 (qrData : String → String)
    (bookings : List (String × Booking)) (id : String)
    (body : SendEmailBody) : SendEmailResult :=
  if isFalsyStr body.htmlContent then ⟨400, []⟩
  else
    match bookings.find? (fun p => p.1 == id) with
    | none => ⟨404, []⟩
    | some p =>
        let url := verificationURLv1 p.2.ticketNumber
        let qrCodeDataURL := qrData url
        let finalHTML :=
          replaceFirst (body.htmlContent.getD "") "\x7b\x7bQR_CODE\x7d\x7d"
            qrCodeDataURL
        ⟨200,
          [{ toAddr := p.2.emailAddress
             subject := orFallback body.subject "Your Ticket"
             textBody := some (orFallback body.message "Here is your ticket")
             htmlBody := finalHTML
             attachments := [] }]⟩

/-- The second version's verification URL
`$\x7bprocess.env.CLIENT_URI\x7d/verify-ticket/$\x7bbooking.ticketNumber\x7d`. -/
def verificationURLv2 (clientURI : String) (t : ℤ) : String :=
  clientURI ++ "/verify-ticket/" ++ toString t

/-- A `$\x7bbooking.eventId?.field\x7d` interpolation on the populated
event: optional chaining yields `undefined` (rendered literally by the
template) when the reference dangles. -/
def optEventField (e : Option Event) (f : Event → String) : String :=
  match e with
  | none => "undefined"
  | some ev => f ev

/-- The second version's inline email template, interpolating the booking
and its populated event (CID-referenced QR image). -/
def emailHTMLv2 (b : Booking) (e : Option Event) : String :=
  r#"
<!DOCTYPE html>
<html>
<body style="margin:0; padding:0; background:#f4f4f4; font-family:Arial, sans-serif;">

<table width="100%" cellpadding="0" cellspacing="0" style="padding:20px 0;">
<tr><td align="center">

<table width="600" cellpadding="0" cellspacing="0" style="background:#ffffff; border-radius:6px; overflow:hidden;">

  <tr>
    <td style="background:#222831; text-align:center; padding:24px;">
      <h2 style="color:#fff; margin:0; font-size:22px;">"# ++
    optEventField e (fun ev => ev.title) ++ r#"</h2>
      <p style="color:#ccc; margin:6px 0 0;">Your Entry Pass</p>
    </td>
  </tr>

  <tr>
    <td style="padding:20px;">
      <table width="100%" cellpadding="0" cellspacing="0" style="border:1px solid #e0e0e0; border-radius:6px;">
        <tr valign="top">

          <td style="padding:16px; width:65%; font-size:14px;">
            <p><strong>Ticket No:</strong> "# ++ toString b.ticketNumber ++
    r#"</p>
            <p><strong>Name:</strong> "# ++ b.firstName ++ " " ++ b.lastName ++
    r#"</p>
            <p><strong>Category:</strong> "# ++ b.ticketType ++ r#"</p>
            <p><strong>City:</strong> "# ++ b.cityName ++ r#"</p>
            <p><strong>Date:</strong> "# ++ optEventField e (fun ev => ev.date) ++
    r#"</p>
            <p><strong>Time:</strong> "# ++
    optEventField e (fun ev => ev.eventTime) ++ r#"</p>
            <p><strong>Location:</strong> "# ++
    optEventField e (fun ev => ev.address) ++ r#"</p>
          </td>

          <td style="padding:16px; text-align:center; width:35%;">
            <p style="font-size:11px; margin-bottom:6px; color:#666;">Scan QR to verify</p>

            <!-- INLINE ATTACHMENT QR -->
            <img src="cid:qrCodeImg" width="140" height="140" alt="QR Code" style="display:block;">
          </td>

        </tr>
      </table>

      <p style="margin-top:16px; font-size:12px; color:#666; text-align:center;">
        Please show this ticket at the entry gate. Valid for one person only.
      </p>

    </td>
  </tr>

  <tr>
    <td style="background:#f7f7f7; text-align:center; padding:12px; color:#777; font-size:12px;">
      Thank you for your purchase!
    </td>
  </tr>

</table>

</td></tr>
</table>

</body>
</html>
"#

/-- Second send-email version: 404 when the id matches no booking;
otherwise encode the verification URL as a QR PNG buffer (`qrBuf`
abstracts `QRCode.toBuffer`) and send exactly one email to the booking's
stored address with the QR attached inline under content-id `qrCodeImg`. -/
def sendEmailV2 (qrBuf : String → String) (clientURI : String)
    (events : List (String × Event)) (bookings : List (String × Booking))
    (id : String) (subject : Option String) : SendEmailResult :=
  match bookings.find? (fun p => p.1 == id) with
  | none => ⟨404, []⟩
  | some p =>
      let url := verificationURLv2 clientURI p.2.ticketNumber
      let qrBuffer := qrBuf url
      ⟨200,
        [{ toAddr := p.2.emailAddress
           subject := orFallback subject "Your Ticket"
           textBody := none
           htmlBody := emailHTMLv2 p.2 (populateEvent events p.2.eventId)
           attachments := [("qrcode.png", qrBuffer, "qrCodeImg")] }]⟩

/-! ### Concrete sample data used to exercise the handlers -/

/-- A well-formed 24-hex-character document id. -/
def sampleEventId : String := "0123456789abcdef01234567"

/-- A second well-formed 24-hex-character document id. -/
def sampleBookingId : String := "89abcdef0123456789abcdef"

/-- A concrete event record. -/
def sampleEvent : Event :=
  { title := "Concert"
    description := "A live concert"
    date := "2025-01-01"
    location := "Lahore"
    category := "Music"
    address := "1 Mall Road"
    standardPrice := "1000"
    vipPrice := "2500"
    eventTime := "19:00"
    refreshments := "Yes"
    imageUrl := "https://res.example/img.png"
    sponsorLogos := ["https://res.example/logo1.png"] }

/-- A concrete booking record referencing `sampleEventId`. -/
def sampleBooking : Booking :=
  { firstName := "Ada"
    lastName := "Lovelace"
    contactNumber := "03001234567"
    emailAddress := "ada@example.com"
    cityName := "Lahore"
    ticketType := "VIP"
    eventId := "0123456789abcdef01234567"
    ticketNumber := 123456
    receiptImage := "https://res.example/receipt.png"
    bookingStatus := "Pending" }

/-! ## Helper lemmas -/

/-- The helper `orFallback` can only produce the empty string from an empty previous
value: the `||` merge never overwrites a field with `""`. -/
theorem orFallback_empty (x : Option String) (prev : String)
    (h : orFallback x prev = "") : prev = "" := by
  cases x with
  | none => exact h
  | some s =>
      by_cases hs : s = ""
      · simpa [orFallback, hs] using h
      · simp [orFallback, hs] at h

/-- Unfolding of `applyEventUpdate`, written out field by field. -/
theorem applyEventUpdate_eq (upl : String → String → String) (ev : Event)
    (body : EventUpdateBody) :
    applyEventUpdate upl ev body =
      { title := orFallback body.title ev.title
        description := orFallback body.description ev.description
        date := orFallback body.date ev.date
        location := orFallback body.location ev.location
        category := orFallback body.category ev.category
        address := orFallback body.address ev.address
        standardPrice := orFallback body.standardPrice ev.standardPrice
        vipPrice := orFallback body.vipPrice ev.vipPrice
        eventTime := orFallback body.eventTime ev.eventTime
        refreshments := orFallback body.refreshments ev.refreshments
        imageUrl :=
          match body.imageFile with
          | none => ev.imageUrl
          | some buf => upl buf "events"
        sponsorLogos :=
          match body.sponsorFiles with
          | none => ev.sponsorLogos
          | some bufs => bufs.map (fun buf => upl buf "events/sponsors") } := by
  rcases hi : body.imageFile with _ | buf <;>
    rcases hs : body.sponsorFiles with _ | bufs <;>
      simp [applyEventUpdate, hi, hs]

/-- Appending a record under a fresh id makes it the first (and only)
match for a lookup of that id. -/
theorem find?_append_fresh {α : Type} (l : List (String × α)) (id : String)
    (v : α) (h : ∀ p ∈ l, p.1 ≠ id) :
    (l ++ [(id, v)]).find? (fun p => p.1 == id) = some (id, v) := by
  induction l with
  | nil => simp
  | cons a t ih =>
      have ha : (a.1 == id) = false := beq_eq_false_iff_ne.mpr (h a (by simp))
      rw [List.cons_append, List.find?_cons_of_neg _ (by simp [ha])]
      exact ih (fun p hp => h p (List.mem_cons_of_mem a hp))

/-! ## Claim theorems -/

/-- C2: for every draw `r ∈ [0, 1)` of the random source, the ticket number
`Math.floor(100000 + r * 900000)` generated by `POST /api/booking/create`
lies in the closed range `[100000, 999999]`, i.e. has exactly 6 decimal
digits. -/
theorem ticketNumber_six_digits (r : ℚ) (h0 : 0 ≤ r) (h1 : r < 1) :
    100000 ≤ genTicketNumber r ∧ genTicketNumber r ≤ 999999 := by
  unfold genTicketNumber
  constructor
  · rw [Int.le_floor]
    push_cast
    nlinarith
  · have hlt : ⌊(100000 : ℚ) + r * 900000⌋ < 1000000 := by
      rw [Int.floor_lt]
      push_cast
      nlinarith
    omega

/-- Witness for C2 at the concrete draw `r = 1/2`. -/
theorem ticketNumber_six_digits_witness :
    100000 ≤ genTicketNumber (1 / 2) ∧ genTicketNumber (1 / 2) ≤ 999999 :=
  ticketNumber_six_digits (1 / 2) (by norm_num) (by norm_num)

/-- C6: `GET /api/events/:id` with an id that is not 24 hexadecimal
characters returns 400 having performed no database query; with a
well-formed id matching no stored event it returns 404. -/
theorem getEventById_validates (db : List (String × Event)) (id : String) :
    (isValidObjectId id = false → getEventById db id = ⟨400, none, 0⟩) ∧
    (isValidObjectId id = true → (∀ p ∈ db, p.1 ≠ id) →
      getEventById db id = ⟨404, none, 1⟩) := by
  constructor
  · intro h
    simp [getEventById, h]
  · intro h habs
    have hfind : db.find? (fun p => p.1 == id) = none := by
      rw [List.find?_eq_none]
      intro p hp
      simpa using habs p hp
    simp [getEventById, h, hfind]

/-- Witness for C6: a malformed id is rejected with 400 and no query; a
well-formed unknown id yields 404 after one query. -/
theorem getEventById_validates_witness :
    getEventById [(sampleEventId, sampleEvent)] "not-a-hex-id" =
      ⟨400, none, 0⟩ ∧
    getEventById [(sampleEventId, sampleEvent)] "89abcdef0123456789abcdef" =
      ⟨404, none, 1⟩ :=
  ⟨(getEventById_validates [(sampleEventId, sampleEvent)] "not-a-hex-id").1
      (by decide),
    (getEventById_validates [(sampleEventId, sampleEvent)]
        "89abcdef0123456789abcdef").2 (by decide)
      (by
        intro p hp
        simp only [List.mem_singleton] at hp
        subst hp
        decide)⟩

/-- C10: the 24-hex-character id check also guards `PUT /api/events/:id`
and `DELETE /api/events/:id`: a malformed id yields 400 with no database
operation, no upload, and an unchanged event store. -/
theorem eventWrite_id_guard (upl : String → String → String)
    (db : List (String × Event)) (id : String) (body : EventUpdateBody)
    (h : isValidObjectId id = false) :
    updateEvent upl db id body = ⟨400, db, 0, 0⟩ ∧
    deleteEvent db id = ⟨400, db, 0, 0⟩ := by
  refine ⟨?_, ?_⟩ <;> simp [updateEvent, deleteEvent, h]

/-- Witness for C10 at the malformed id `"short"`. -/
theorem eventWrite_id_guard_witness :
    updateEvent (fun buf folder => folder ++ "/" ++ buf)
        [(sampleEventId, sampleEvent)] "short"
        ⟨none, none, none, none, none, none, none, none, none, none, none,
          none⟩ =
      ⟨400, [(sampleEventId, sampleEvent)], 0, 0⟩ ∧
    deleteEvent [(sampleEventId, sampleEvent)] "short" =
      ⟨400, [(sampleEventId, sampleEvent)], 0, 0⟩ :=
  eventWrite_id_guard _ _ _ _ (by decide)

/-- C4: `POST /api/booking/create` without the receipt file, or without an
`eventId` in the body, returns 400, performs no upload, and leaves the
booking store unchanged (no record is created). -/
theorem createBooking_requires_receipt_and_eventId
    (upl : String → String → String) (tn : ℤ)
    (db : List (String × Booking)) (newId : String)
    (body : CreateBookingBody)
    (h : body.receiptFile = none ∨ body.eventId = none) :
    createBooking upl tn db newId body = ⟨400, db, none, 0⟩ := by
  rcases h with h | h
  · simp [createBooking, h]
  · rcases hr : body.receiptFile with _ | f
    · simp [createBooking, hr]
    · simp [createBooking, hr, isFalsyStr, h]

/-- Witness for C4: a request carrying an `eventId` but no receipt file is
rejected without touching either store. -/
theorem createBooking_requires_receipt_and_eventId_witness :
    createBooking (fun buf folder => folder ++ "/" ++ buf) 123456 []
        sampleBookingId
        ⟨"Ada", "Lovelace", "03001234567", "ada@example.com", "Lahore",
          "VIP", some "0123456789abcdef01234567", none⟩ =
      ⟨400, [], none, 0⟩ :=
  createBooking_requires_receipt_and_eventId _ _ _ _ _ (Or.inl rfl)

/-- C3: `PUT /api/booking/update-status/:id` with a status outside
`\x7bPending, Paid, Unpaid, Cancelled\x7d` returns 400 with no database
operation and an unchanged store; with a status in the enumeration and an
existing booking, the stored status is replaced by the supplied value. -/
theorem updateBookingStatus_validates (db : List (String × Booking))
    (id : String) (st : Option String) :
    ((∀ s ∈ st, s ∉ validStatuses) →
      updateBookingStatus db id st = ⟨400, db, 0⟩) ∧
    (∀ s, st = some s → s ∈ validStatuses →
      ∀ p, db.find? (fun q => q.1 == id) = some p →
        updateBookingStatus db id st =
          ⟨200, setById db id { p.2 with bookingStatus := s }, 1⟩) := by
  constructor
  · intro h
    rcases hs : st with _ | s
    · rfl
    · have hc : validStatuses.contains s = false := by
        simpa using h s (by simp [hs])
      simp only [updateBookingStatus, hc, Bool.not_false]
      simp
  · intro s hs hmem p hp
    subst hs
    have hc : validStatuses.contains s = true := by
      simpa using hmem
    simp only [updateBookingStatus, hc, Bool.not_true, hp]
    simp

/-- Witness for C3: "Archived" is rejected leaving the store untouched;
"Paid" on an existing booking replaces the stored status. -/
theorem updateBookingStatus_validates_witness :
    updateBookingStatus [(sampleBookingId, sampleBooking)] sampleBookingId
        (some "Archived") =
      ⟨400, [(sampleBookingId, sampleBooking)], 0⟩ ∧
    updateBookingStatus [(sampleBookingId, sampleBooking)] sampleBookingId
        (some "Paid") =
      ⟨200,
        [(sampleBookingId, { sampleBooking with bookingStatus := "Paid" })],
        1⟩ :=
  ⟨(updateBookingStatus_validates _ _ _).1 (by decide),
    (updateBookingStatus_validates _ _ _).2 "Paid" rfl (by decide)
      (sampleBookingId, sampleBooking) (by decide)⟩

/-- C1: `GET /api/booking/verify/:ticketNumber` returns 404 with
`valid:false` when no booking matches the ticket number, and 200 with
`valid:true` plus the first-matching booking, its referenced event
populated, when one does. -/
theorem verifyTicket_spec (events : List (String × Event))
    (bookings : List (String × Booking)) (t : ℤ) :
    ((∀ p ∈ bookings, p.2.ticketNumber ≠ t) →
      verifyTicket events bookings t = ⟨404, false, none⟩) ∧
    (∀ p, bookings.find? (fun q => q.2.ticketNumber == t) = some p →
      verifyTicket events bookings t =
        ⟨200, true, some (p.2, populateEvent events p.2.eventId)⟩) := by
  constructor
  · intro h
    have hfind : bookings.find? (fun q => q.2.ticketNumber == t) = none := by
      rw [List.find?_eq_none]
      intro p hp
      simpa using h p hp
    simp [verifyTicket, hfind]
  · intro p hp
    simp [verifyTicket, hp]

/-- Witness for C1: an unknown ticket number is reported invalid with 404;
the stored ticket number is reported valid with its booking and event. -/
theorem verifyTicket_spec_witness :
    verifyTicket [(sampleEventId, sampleEvent)]
        [(sampleBookingId, sampleBooking)] 999999 =
      ⟨404, false, none⟩ ∧
    verifyTicket [(sampleEventId, sampleEvent)]
        [(sampleBookingId, sampleBooking)] 123456 =
      ⟨200, true, some (sampleBooking, some sampleEvent)⟩ :=
  ⟨(verifyTicket_spec _ _ _).1 (by decide),
    (verifyTicket_spec _ _ _).2 (sampleBookingId, sampleBooking) (by decide)⟩

/-- C5: for an existing event, `PUT /api/events/:id` keeps every text field
that is absent from the request body at its previous stored value, keeps
`imageUrl` and `sponsorLogos` unless files are attached, and replaces them
by the freshly uploaded URLs when files are attached. -/
theorem updateEvent_keeps_unsupplied (upl : String → String → String)
    (db : List (String × Event)) (id : String) (body : EventUpdateBody)
    (p : String × Event)
    (hid : isValidObjectId id = true)
    (hfind : db.find? (fun q => q.1 == id) = some p) :
    updateEvent upl db id body =
      ⟨200, setById db id (applyEventUpdate upl p.2 body), 2,
        updateUploads body⟩ ∧
    (body.title = none → (applyEventUpdate upl p.2 body).title = p.2.title) ∧
    (body.description = none →
      (applyEventUpdate upl p.2 body).description = p.2.description) ∧
    (body.date = none → (applyEventUpdate upl p.2 body).date = p.2.date) ∧
    (body.location = none →
      (applyEventUpdate upl p.2 body).location = p.2.location) ∧
    (body.category = none →
      (applyEventUpdate upl p.2 body).category = p.2.category) ∧
    (body.address = none →
      (applyEventUpdate upl p.2 body).address = p.2.address) ∧
    (body.standardPrice = none →
      (applyEventUpdate upl p.2 body).standardPrice = p.2.standardPrice) ∧
    (body.vipPrice = none →
      (applyEventUpdate upl p.2 body).vipPrice = p.2.vipPrice) ∧
    (body.eventTime = none →
      (applyEventUpdate upl p.2 body).eventTime = p.2.eventTime) ∧
    (body.refreshments = none →
      (applyEventUpdate upl p.2 body).refreshments = p.2.refreshments) ∧
    (body.imageFile = none →
      (applyEventUpdate upl p.2 body).imageUrl = p.2.imageUrl) ∧
    (∀ buf, body.imageFile = some buf →
      (applyEventUpdate upl p.2 body).imageUrl = upl buf "events") ∧
    (body.sponsorFiles = none →
      (applyEventUpdate upl p.2 body).sponsorLogos = p.2.sponsorLogos) ∧
    (∀ bufs, body.sponsorFiles = some bufs →
      (applyEventUpdate upl p.2 body).sponsorLogos =
        bufs.map (fun buf => upl buf "events/sponsors")) := by
  refine ⟨?_, ?_, ?_, ?_, ?_, ?_, ?_, ?_, ?_, ?_, ?_, ?_, ?_, ?_, ?_⟩
  · simp [updateEvent, hid, hfind]
  all_goals intros
  all_goals simp_all [applyEventUpdate_eq, orFallback]

/-- Witness for C5: a body supplying only `title` leaves every other field
of the stored event unchanged and answers 200. -/
theorem updateEvent_keeps_unsupplied_witness :
    updateEvent (fun buf folder => folder ++ "/" ++ buf)
        [(sampleEventId, sampleEvent)] sampleEventId
        ⟨some "Gala", none, none, none, none, none, none, none, none, none,
          none, none⟩ =
      ⟨200, [(sampleEventId, { sampleEvent with title := "Gala" })], 2, 0⟩ ∧
    (applyEventUpdate (fun buf folder => folder ++ "/" ++ buf) sampleEvent
        ⟨some "Gala", none, none, none, none, none, none, none, none, none,
          none, none⟩).date = sampleEvent.date := by
  have h := updateEvent_keeps_unsupplied (fun buf folder => folder ++ "/" ++ buf)
    [(sampleEventId, sampleEvent)] sampleEventId
    ⟨some "Gala", none, none, none, none, none, none, none, none, none,
      none, none⟩
    (sampleEventId, sampleEvent) (by decide) (by decide)
  refine ⟨?_, h.2.2.2.1 rfl⟩
  have h1 := h.1
  rw [h1]
  decide

/-- C9: in `PUT /api/events/:id`, a text field supplied as the empty string
is treated exactly like an absent field (the `||` fallback keeps the stored
value), so the update can never set any of the ten text fields to `""`. -/
theorem eventUpdate_empty_as_absent (upl : String → String → String)
    (ev : Event) (body : EventUpdateBody) :
    applyEventUpdate upl ev { body with title := some "" } =
      applyEventUpdate upl ev { body with title := none } ∧
    applyEventUpdate upl ev { body with description := some "" } =
      applyEventUpdate upl ev { body with description := none } ∧
    applyEventUpdate upl ev { body with date := some "" } =
      applyEventUpdate upl ev { body with date := none } ∧
    applyEventUpdate upl ev { body with location := some "" } =
      applyEventUpdate upl ev { body with location := none } ∧
    applyEventUpdate upl ev { body with category := some "" } =
      applyEventUpdate upl ev { body with category := none } ∧
    applyEventUpdate upl ev { body with address := some "" } =
      applyEventUpdate upl ev { body with address := none } ∧
    applyEventUpdate upl ev { body with standardPrice := some "" } =
      applyEventUpdate upl ev { body with standardPrice := none } ∧
    applyEventUpdate upl ev { body with vipPrice := some "" } =
      applyEventUpdate upl ev { body with vipPrice := none } ∧
    applyEventUpdate upl ev { body with eventTime := some "" } =
      applyEventUpdate upl ev { body with eventTime := none } ∧
    applyEventUpdate upl ev { body with refreshments := some "" } =
      applyEventUpdate upl ev { body with refreshments := none } ∧
    ((applyEventUpdate upl ev body).title = "" → ev.title = "") ∧
    ((applyEventUpdate upl ev body).description = "" →
      ev.description = "") ∧
    ((applyEventUpdate upl ev body).date = "" → ev.date = "") ∧
    ((applyEventUpdate upl ev body).location = "" → ev.location = "") ∧
    ((applyEventUpdate upl ev body).category = "" → ev.category = "") ∧
    ((applyEventUpdate upl ev body).address = "" → ev.address = "") ∧
    ((applyEventUpdate upl ev body).standardPrice = "" →
      ev.standardPrice = "") ∧
    ((applyEventUpdate upl ev body).vipPrice = "" → ev.vipPrice = "") ∧
    ((applyEventUpdate upl ev body).eventTime = "" → ev.eventTime = "") ∧
    ((applyEventUpdate upl ev body).refreshments = "" →
      ev.refreshments = "") := by
  refine ⟨?_, ?_, ?_, ?_, ?_, ?_, ?_, ?_, ?_, ?_, ?_, ?_, ?_, ?_, ?_, ?_,
    ?_, ?_, ?_, ?_⟩
  all_goals first
    | (simp [applyEventUpdate_eq, orFallback]; done)
    | (intro h
       exact orFallback_empty _ _ (by simpa [applyEventUpdate_eq] using h))

/-- Witness for C9: an event whose title is already empty stays empty under
an all-absent body, via the never-sets-empty direction of the theorem. -/
theorem eventUpdate_empty_as_absent_witness :
    (applyEventUpdate (fun buf folder => folder ++ "/" ++ buf)
        { sampleEvent with title := "" }
        ⟨none, none, none, none, none, none, none, none, none, none, none,
          none⟩).title = "" ∧
    ({ sampleEvent with title := "" } : Event).title = "" :=
  ⟨by decide,
    (eventUpdate_empty_as_absent (fun buf folder => folder ++ "/" ++ buf)
        { sampleEvent with title := "" }
        ⟨none, none, none, none, none, none, none, none, none, none, none,
          none⟩).2.2.2.2.2.2.2.2.2.2.1 (by decide)⟩

/-- C7: `POST /api/events/add` followed by `GET /api/events/:id` on the
returned id reads back an event whose ten text fields equal the submitted
payload (round trip through create and read). -/
theorem createEvent_get_roundtrip (upl : String → String → String)
    (db : List (String × Event)) (newId : String) (body : EventCreateBody)
    (hid : isValidObjectId newId = true)
    (hfresh : ∀ p ∈ db, p.1 ≠ newId) :
    createEvent upl db newId body =
      ⟨201, db ++ [(newId, builtEvent upl body)],
        some (builtEvent upl body)⟩ ∧
    getEventById (createEvent upl db newId body).db newId =
      ⟨200, some (builtEvent upl body), 1⟩ ∧
    (builtEvent upl body).title = body.title ∧
    (builtEvent upl body).description = body.description ∧
    (builtEvent upl body).date = body.date ∧
    (builtEvent upl body).location = body.location ∧
    (builtEvent upl body).category = body.category ∧
    (builtEvent upl body).address = body.address ∧
    (builtEvent upl body).standardPrice = body.standardPrice ∧
    (builtEvent upl body).vipPrice = body.vipPrice ∧
    (builtEvent upl body).eventTime = body.eventTime ∧
    (builtEvent upl body).refreshments = body.refreshments := by
  have hfind := find?_append_fresh db newId (builtEvent upl body) hfresh
  exact ⟨rfl, by simp [createEvent, getEventById, hid, hfind], rfl, rfl,
    rfl, rfl, rfl, rfl, rfl, rfl, rfl, rfl⟩

/-- Witness for C7: creating a concrete event in an empty store and reading
it back through `GET /:id` returns the submitted field values. -/
theorem createEvent_get_roundtrip_witness :
    getEventById
        (createEvent (fun buf folder => folder ++ "/" ++ buf) [] sampleEventId
            ⟨"Concert", "A live concert", "2025-01-01", "Lahore", "Music",
              "1 Mall Road", "1000", "2500", "19:00", "Yes", none,
              none⟩).db sampleEventId =
      ⟨200,
        some (builtEvent (fun buf folder => folder ++ "/" ++ buf)
          ⟨"Concert", "A live concert", "2025-01-01", "Lahore", "Music",
            "1 Mall Road", "1000", "2500", "19:00", "Yes", none, none⟩),
        1⟩ ∧
    (builtEvent (fun buf folder => folder ++ "/" ++ buf)
        ⟨"Concert", "A live concert", "2025-01-01", "Lahore", "Music",
          "1 Mall Road", "1000", "2500", "19:00", "Yes", none,
          none⟩).title = "Concert" := by
  have h := createEvent_get_roundtrip
    (fun buf folder => folder ++ "/" ++ buf) [] sampleEventId
    ⟨"Concert", "A live concert", "2025-01-01", "Lahore", "Music",
      "1 Mall Road", "1000", "2500", "19:00", "Yes", none, none⟩
    (by decide) (by simp)
  exact ⟨h.2.1, h.2.2.1⟩

/-- C8 counterexample: in the first route version, a request for an
existing booking whose body carries no `htmlContent` is answered 400 and
zero emails are handed to the transport — not one. -/
theorem sendEmail_existing_booking_no_email :
    ([(sampleBookingId, sampleBooking)] : List (String × Booking)).find?
        (fun p => p.1 == sampleBookingId) =
      some (sampleBookingId, sampleBooking) ∧
    sendEmailV1 (fun u => u) [(sampleBookingId, sampleBooking)]
        sampleBookingId ⟨none, none, none⟩ = ⟨400, []⟩ :=
  ⟨by decide, rfl⟩

/-- C8 (amended): for an existing booking id the CID version sends exactly
one email to the booking's stored address with the QR buffer encoding the
verification URL, which is the configured prefix followed by the ticket
number, for every request body; the first version does the same with the
QR data-URL substituted into the caller's HTML provided a non-empty
`htmlContent` is supplied, and returns 400 sending nothing otherwise; both
versions return 404 and send nothing when no booking matches the id. -/
theorem sendEmail_spec (qrData qrBuf : String → String) (clientURI : String)
    (events : List (String × Event)) (bookings : List (String × Booking))
    (id : String) (body : SendEmailBody) (subject : Option String) :
    (∀ p, bookings.find? (fun q => q.1 == id) = some p →
      ∃ e, sendEmailV2 qrBuf clientURI events bookings id subject =
          ⟨200, [e]⟩ ∧
        e.toAddr = p.2.emailAddress ∧
        e.attachments =
          [("qrcode.png",
            qrBuf (verificationURLv2 clientURI p.2.ticketNumber),
            "qrCodeImg")] ∧
        verificationURLv2 clientURI p.2.ticketNumber =
          (clientURI ++ "/verify-ticket/") ++ toString p.2.ticketNumber) ∧
    (bookings.find? (fun q => q.1 == id) = none →
      sendEmailV2 qrBuf clientURI events bookings id subject = ⟨404, []⟩) ∧
    (∀ html, body.htmlContent = some html → html ≠ "" →
      ∀ p, bookings.find? (fun q => q.1 == id) = some p →
        ∃ e, sendEmailV1 qrData bookings id body = ⟨200, [e]⟩ ∧
          e.toAddr = p.2.emailAddress ∧
          e.htmlBody = replaceFirst html "\x7b\x7bQR_CODE\x7d\x7d"
            (qrData (verificationURLv1 p.2.ticketNumber)) ∧
          verificationURLv1 p.2.ticketNumber =
            "https://your-domain.com/verify-ticket/" ++
              toString p.2.ticketNumber) ∧
    (isFalsyStr body.htmlContent = true →
      sendEmailV1 qrData bookings id body = ⟨400, []⟩) ∧
    (isFalsyStr body.htmlContent = false →
      bookings.find? (fun q => q.1 == id) = none →
      sendEmailV1 qrData bookings id body = ⟨404, []⟩) := by
  refine ⟨?_, ?_, ?_, ?_, ?_⟩
  · intro p hp
    refine ⟨{ toAddr := p.2.emailAddress
              subject := orFallback subject "Your Ticket"
              textBody := none
              htmlBody := emailHTMLv2 p.2 (populateEvent events p.2.eventId)
              attachments := [("qrcode.png",
                qrBuf (verificationURLv2 clientURI p.2.ticketNumber),
                "qrCodeImg")] }, ?_, rfl, rfl, rfl⟩
    simp [sendEmailV2, hp]
  · intro h
    simp [sendEmailV2, h]
  · intro html hh hne p hp
    have hf : isFalsyStr body.htmlContent = false := by
      simp [isFalsyStr, hh, hne]
    refine ⟨{ toAddr := p.2.emailAddress
              subject := orFallback body.subject "Your Ticket"
              textBody := some (orFallback body.message "Here is your ticket")
              htmlBody := replaceFirst html "\x7b\x7bQR_CODE\x7d\x7d"
                (qrData (verificationURLv1 p.2.ticketNumber))
              attachments := [] }, ?_, rfl, rfl, rfl⟩
    simp [sendEmailV1, isFalsyStr, hp, hh, hne]
  · intro h
    simp [sendEmailV1, h]
  · intro hf hn
    simp [sendEmailV1, hf, hn]

/-- Witness for the amended C8: with identity QR encoders, the CID version
emails the stored address of the sample booking, and the first version
rejects a body without `htmlContent` with 400 and no email. -/
theorem sendEmail_spec_witness :
    (∃ e, sendEmailV2 (fun u => u) "https://client.example"
          [(sampleEventId, sampleEvent)] [(sampleBookingId, sampleBooking)]
          sampleBookingId none = ⟨200, [e]⟩ ∧
        e.toAddr = sampleBooking.emailAddress) ∧
    sendEmailV1 (fun u => u) [(sampleBookingId, sampleBooking)]
        sampleBookingId ⟨none, none, none⟩ = ⟨400, []⟩ := by
  have h := sendEmail_spec (fun u => u) (fun u => u) "https://client.example"
    [(sampleEventId, sampleEvent)] [(sampleBookingId, sampleBooking)]
    sampleBookingId ⟨none, none, none⟩ none
  obtain ⟨e, h1, h2, -, -⟩ :=
    h.1 (sampleBookingId, sampleBooking) (by decide)
  exact ⟨⟨e, h1, h2⟩, h.2.2.2.1 (by decide)⟩

end Rangrez
